import Mathlib

/-!
# Verification of the demand-boost and review-routing engine

Shallow embedding, in Lean 4, of the core of the
`agenticaibasicprototype` repository:

* `src/agents/tools.py` — step functions, the six category boost
  calculators, the aggregator, the forecast composer, and the critic
  review tool;
* `src/graph/demand_flow.py` — the routing, human-approval, attempt
  and finalize nodes of the workflow state machine;
* `src/DBmock/consensus_demand.py` — the planned-consensus store
  (`load_consensus_demands` / `upsert_consensus_demand`).

Python numbers are modelled as exact rationals (`ℚ`), Python `round`
as round-half-to-even scaled by a power of ten, signal dictionaries as
association lists, and fallible conversions (`_safe_float`,
`_safe_bool`) as `Option`-valued functions.
-/

set_option maxRecDepth 4000

namespace DemandEngine

/-- A Python value as it occurs in a signal dictionary: a number, a
boolean, or `None`.  A missing dictionary key is modelled by `get`
returning `PyVal.none`, exactly as `dict.get` returns `None`. -/
inductive PyVal where
  | num (q : ℚ)
  | boolean (b : Bool)
  | none
  deriving DecidableEq, Repr

/-- A signal value set: mapping from signal name to value
(`Dict[str, Any]` in the source). -/
abbrev SignalValues := List (String × PyVal)

/-- `values.get(name)`: `None` when the key is absent. -/
def pyGet (values : SignalValues) (name : String) : PyVal :=
  (values.lookup name).getD .none

/-- `_safe_float`: `None` stays `None`, numbers convert to themselves,
booleans convert to `1.0` / `0.0` (Python `float(True) = 1.0`). -/
def safe_float : PyVal → Option ℚ
  | .num q => some q
  | .boolean b => some (if b then 1 else 0)
  | .none => Option.none

/-- `_safe_bool`: only actual booleans convert; numbers and `None`
give `None`. -/
def safe_bool : PyVal → Option Bool
  | .boolean b => some b
  | _ => Option.none

/-- Python `round()` to an integer: round half to even. -/
def roundHalfEven (q : ℚ) : ℤ :=
  let f := ⌊q⌋
  let r := q - f
  if r < 1/2 then f
  else if 1/2 < r then f + 1
  else if 2 ∣ f then f else f + 1

/-- Python `round(q, n)`: round half to even at the `n`-th decimal. -/
def pyRound (n : ℕ) (q : ℚ) : ℚ :=
  (roundHalfEven (q * 10 ^ n) : ℚ) / 10 ^ n

/-- `round` is the identity on a rational that is already an integer. -/
theorem roundHalfEven_intCast (k : ℤ) : roundHalfEven (k : ℚ) = k := by
  unfold roundHalfEven
  have hf : ⌊(k : ℚ)⌋ = k := Int.floor_intCast k
  simp [hf]

/-- `round(q, n)` is the identity when `q * 10^n` is an integer. -/
theorem pyRound_eq_self {n : ℕ} {q : ℚ} (h : ∃ k : ℤ, q * 10 ^ n = k) :
    pyRound n q = q := by
  obtain ⟨k, hk⟩ := h
  unfold pyRound
  rw [hk, roundHalfEven_intCast, ← hk]
  have h10 : (10 : ℚ) ^ n ≠ 0 := by positivity
  field_simp

/-- `_step_boost_from_signed_score` (src/agents/tools.py): the signed
step function used by the social, marketing, trade-promo,
digital-shelf and weather calculators. -/
def step_boost_from_signed_score (score : ℚ) : ℚ :=
  if score ≤ -1.00 then -0.30
  else if score ≤ -0.70 then -0.20
  else if score ≤ -0.35 then -0.10
  else if score < 0.35 then 0.0
  else if score < 0.60 then 0.10
  else if score < 0.80 then 0.20
  else if score < 1.00 then 0.30
  else if score < 1.20 then 0.40
  else if score < 1.40 then 0.50
  else 0.60

/-- `_step_boost_from_competitor_net` (src/agents/tools.py): the
asymmetric step function used by the competitor calculator. -/
def step_boost_from_competitor_net (net_score : ℚ) : ℚ :=
  if net_score ≤ -0.80 then -0.30
  else if net_score ≤ -0.50 then -0.20
  else if net_score ≤ -0.20 then -0.10
  else if net_score < 0.20 then 0.0
  else if net_score < 0.50 then 0.10
  else if net_score < 0.80 then 0.20
  else 0.30

/-- Result of one category boost calculator: the boost fraction and
the (rounded) net score.  The raw inputs recorded by the source are
recoverable from the signal set and are not repeated here. -/
structure CategoryBoost where
  boost_percent : ℚ
  net_score : ℚ
  deriving DecidableEq, Repr

/-- Tailwind/headwind contribution of one signal, as a
`(tailwinds, headwinds)` increment pair; `(0, 0)` when the signal is
missing or non-numeric. -/
abbrev Contrib := ℚ × ℚ

def trendContrib : Option ℚ → Contrib
  | Option.none => (0, 0)
  | some trend =>
    if trend ≥ 0.30 then (0.40, 0)
    else if trend ≥ 0.15 then (0.25, 0)
    else if trend ≥ 0.05 then (0.10, 0)
    else if trend ≤ -0.15 then (0, 0.30)
    else if trend ≤ -0.05 then (0, 0.15)
    else (0, 0)

def sentimentContrib : Option ℚ → Contrib
  | Option.none => (0, 0)
  | some sentiment =>
    if sentiment ≥ 80 then (0.30, 0)
    else if sentiment ≥ 70 then (0.20, 0)
    else if sentiment ≥ 60 then (0.10, 0)
    else if sentiment ≤ 40 then (0, 0.35)
    else if sentiment ≤ 50 then (0, 0.20)
    else (0, 0)

def hashtagsContrib : Option ℚ → Contrib
  | Option.none => (0, 0)
  | some hashtags =>
    if hashtags ≥ 2000 then (0.25, 0)
    else if hashtags ≥ 1200 then (0.15, 0)
    else if hashtags ≥ 600 then (0.05, 0)
    else if hashtags < 200 then (0, 0.10)
    else (0, 0)

def influencerContrib : Option ℚ → Contrib
  | Option.none => (0, 0)
  | some influencer =>
    if influencer ≥ 30 then (0.25, 0)
    else if influencer ≥ 15 then (0.15, 0)
    else if influencer ≥ 5 then (0.05, 0)
    else if influencer < 2 then (0, 0.10)
    else (0, 0)

/-- `calculate_social_signal_demand_boost` (src/agents/tools.py). -/
def calculate_social_signal_demand_boost (values : SignalValues) : CategoryBoost :=
  let trend := safe_float (pyGet values "Ingredient Trend Velocity")
  let sentiment := safe_float (pyGet values "Brand Sentiment Score")
  let hashtags := safe_float (pyGet values "Viral Hashtag Volume")
  let influencer := safe_float (pyGet values "Influencer Mention Count")
  let c1 := trendContrib trend
  let c2 := sentimentContrib sentiment
  let c3 := hashtagsContrib hashtags
  let c4 := influencerContrib influencer
  let tailwinds := c1.1 + c2.1 + c3.1 + c4.1
  let headwinds := c1.2 + c2.2 + c3.2 + c4.2
  let net_score := tailwinds - headwinds
  { boost_percent := step_boost_from_signed_score net_score
    net_score := pyRound 4 net_score }

def spendContrib : Option ℚ → Contrib
  | Option.none => (0, 0)
  | some spend =>
    if spend ≥ 200000 then (0.35, 0)
    else if spend ≥ 120000 then (0.25, 0)
    else if spend ≥ 60000 then (0.15, 0)
    else if spend < 15000 then (0, 0.35)
    else if spend < 30000 then (0, 0.20)
    else (0, 0)

def ctrContrib : Option ℚ → Contrib
  | Option.none => (0, 0)
  | some ctr =>
    if ctr ≥ 0.025 then (0.25, 0)
    else if ctr ≥ 0.018 then (0.18, 0)
    else if ctr ≥ 0.012 then (0.10, 0)
    else if ctr < 0.006 then (0, 0.30)
    else if ctr < 0.010 then (0, 0.15)
    else (0, 0)

def vcrContrib : Option ℚ → Contrib
  | Option.none => (0, 0)
  | some vcr =>
    if vcr ≥ 0.40 then (0.20, 0)
    else if vcr ≥ 0.30 then (0.15, 0)
    else if vcr ≥ 0.20 then (0.08, 0)
    else if vcr < 0.10 then (0, 0.20)
    else (0, 0)

def retargetContrib : Option ℚ → Contrib
  | Option.none => (0, 0)
  | some retarget =>
    if retarget ≥ 20000 then (0.20, 0)
    else if retarget ≥ 12000 then (0.12, 0)
    else if retarget ≥ 6000 then (0.06, 0)
    else if retarget < 1500 then (0, 0.15)
    else (0, 0)

/-- `calculate_marketing_spend_demand_boost` (src/agents/tools.py). -/
def calculate_marketing_spend_demand_boost (values : SignalValues) : CategoryBoost :=
  let spend := safe_float (pyGet values "Performance Marketing Spend")
  let ctr := safe_float (pyGet values "Campaign Click-Through-Rate (CTR)")
  let vcr := safe_float (pyGet values "Video Completion Rate")
  let retarget := safe_float (pyGet values "Retargeting Pool Size")
  let c1 := spendContrib spend
  let c2 := ctrContrib ctr
  let c3 := vcrContrib vcr
  let c4 := retargetContrib retarget
  let tailwinds := c1.1 + c2.1 + c3.1 + c4.1
  let headwinds := c1.2 + c2.2 + c3.2 + c4.2
  let net_score := tailwinds - headwinds
  { boost_percent := step_boost_from_signed_score net_score
    net_score := pyRound 4 net_score }

def discountContrib : Option ℚ → Contrib
  | Option.none => (0, 0)
  | some discount =>
    if discount ≥ 0.30 then (0.45, 0)
    else if discount ≥ 0.20 then (0.35, 0)
    else if discount ≥ 0.10 then (0.20, 0)
    else if discount ≥ 0.05 then (0.10, 0)
    else if discount < 0.01 then (0, 0.10)
    else (0, 0)

def cartConvContrib : Option ℚ → Contrib
  | Option.none => (0, 0)
  | some cart_conv =>
    if cart_conv ≥ 0.10 then (0.20, 0)
    else if cart_conv ≥ 0.06 then (0.12, 0)
    else if cart_conv ≥ 0.03 then (0.06, 0)
    else if cart_conv < 0.01 then (0, 0.15)
    else if cart_conv < 0.02 then (0, 0.08)
    else (0, 0)

/-- `calculate_trade_promo_demand_boost` (src/agents/tools.py),
including the extra headwind when no promo lever is active. -/
def calculate_trade_promo_demand_boost (values : SignalValues) : CategoryBoost :=
  let discount := safe_float (pyGet values "On-Platform Discount Depth")
  let bundle := safe_bool (pyGet values "Bundle Offer Active Status")
  let flash := safe_bool (pyGet values "Flash Sale Participation")
  let cart_conv := safe_float (pyGet values "Cart-Level Offer Conversion")
  let c1 := discountContrib discount
  let c2 : Contrib := if bundle = some true then (0.15, 0) else (0, 0)
  let c3 : Contrib := if flash = some true then (0.25, 0) else (0, 0)
  let c4 := cartConvContrib cart_conv
  let noLevers : Bool :=
    (bundle ≠ some true) && (flash ≠ some true) &&
      (match discount with
        | some d => decide (d < 0.02)
        | Option.none => false)
  let c5 : Contrib := if noLevers then (0, 0.10) else (0, 0)
  let tailwinds := c1.1 + c2.1 + c3.1 + c4.1 + c5.1
  let headwinds := c1.2 + c2.2 + c3.2 + c4.2 + c5.2
  let net_score := tailwinds - headwinds
  { boost_percent := step_boost_from_signed_score net_score
    net_score := pyRound 4 net_score }

def rankContrib : Option ℚ → Contrib
  | Option.none => (0, 0)
  | some rank =>
    if rank ≤ 3 then (0.30, 0)
    else if rank ≤ 6 then (0.20, 0)
    else if rank ≤ 10 then (0.10, 0)
    else if rank ≥ 25 then (0, 0.35)
    else if rank ≥ 15 then (0, 0.20)
    else (0, 0)

def pdpContrib : Option ℚ → Contrib
  | Option.none => (0, 0)
  | some pdp =>
    if pdp ≥ 60000 then (0.25, 0)
    else if pdp ≥ 40000 then (0.18, 0)
    else if pdp ≥ 20000 then (0.10, 0)
    else if pdp < 8000 then (0, 0.25)
    else if pdp < 15000 then (0, 0.15)
    else (0, 0)

def buyboxContrib : Option ℚ → Contrib
  | Option.none => (0, 0)
  | some buybox =>
    if buybox ≥ 0.95 then (0.20, 0)
    else if buybox ≥ 0.90 then (0.12, 0)
    else if buybox ≥ 0.80 then (0.06, 0)
    else if buybox < 0.70 then (0, 0.35)
    else if buybox < 0.85 then (0, 0.15)
    else (0, 0)

def reviewsContrib : Option ℚ → Contrib
  | Option.none => (0, 0)
  | some reviews =>
    if reviews ≥ 40 then (0.20, 0)
    else if reviews ≥ 25 then (0.12, 0)
    else if reviews ≥ 10 then (0.06, 0)
    else if reviews < 3 then (0, 0.20)
    else (0, 0)

/-- `calculate_digital_shelf_demand_boost` (src/agents/tools.py). -/
def calculate_digital_shelf_demand_boost (values : SignalValues) : CategoryBoost :=
  let rank := safe_float (pyGet values "Share of Search (Keyword Rank)")
  let pdp := safe_float (pyGet values "Product Detail Page (PDP) Views")
  let buybox := safe_float (pyGet values "Buy Box Win Rate")
  let reviews := safe_float (pyGet values "Rating & Review Velocity")
  let c1 := rankContrib rank
  let c2 := pdpContrib pdp
  let c3 := buyboxContrib buybox
  let c4 := reviewsContrib reviews
  let tailwinds := c1.1 + c2.1 + c3.1 + c4.1
  let headwinds := c1.2 + c2.2 + c3.2 + c4.2
  let net_score := tailwinds - headwinds
  { boost_percent := step_boost_from_signed_score net_score
    net_score := pyRound 4 net_score }

def tempContrib : Option ℚ → Contrib
  | Option.none => (0, 0)
  | some temp =>
    if temp ≥ 35 then (0.35, 0)
    else if temp ≥ 30 then (0.25, 0)
    else if temp ≥ 26 then (0.15, 0)
    else if temp ≤ 15 then (0, 0.35)
    else if temp ≤ 20 then (0, 0.20)
    else (0, 0)

def humidityContrib : Option ℚ → Contrib
  | Option.none => (0, 0)
  | some humidity =>
    if humidity ≥ 0.80 then (0.20, 0)
    else if humidity ≥ 0.65 then (0.12, 0)
    else if humidity ≥ 0.50 then (0.06, 0)
    else if humidity ≤ 0.25 then (0, 0.15)
    else (0, 0)

def uvContrib : Option ℚ → Contrib
  | Option.none => (0, 0)
  | some uv =>
    if uv ≥ 8 then (0.25, 0)
    else if uv ≥ 6 then (0.15, 0)
    else if uv ≥ 4 then (0.08, 0)
    else if uv ≤ 1.5 then (0, 0.15)
    else (0, 0)

def aqiContrib : Option ℚ → Contrib
  | Option.none => (0, 0)
  | some aqi =>
    if aqi ≥ 200 then (0.20, 0)
    else if aqi ≥ 150 then (0.12, 0)
    else if aqi ≥ 100 then (0.06, 0)
    else if aqi < 40 then (0, 0.10)
    else (0, 0)

/-- `calculate_weather_environment_demand_boost` (src/agents/tools.py). -/
def calculate_weather_environment_demand_boost (values : SignalValues) : CategoryBoost :=
  let temp := safe_float (pyGet values "Max Temperature Forecast")
  let humidity := safe_float (pyGet values "Humidity Index")
  let uv := safe_float (pyGet values "UV Index")
  let aqi := safe_float (pyGet values "Air Quality Index (AQI)")
  let c1 := tempContrib temp
  let c2 := humidityContrib humidity
  let c3 := uvContrib uv
  let c4 := aqiContrib aqi
  let tailwinds := c1.1 + c2.1 + c3.1 + c4.1
  let headwinds := c1.2 + c2.2 + c3.2 + c4.2
  let net_score := tailwinds - headwinds
  { boost_percent := step_boost_from_signed_score net_score
    net_score := pyRound 4 net_score }

def priceGapDelta : Option ℚ → ℚ
  | Option.none => 0
  | some price_gap =>
    if price_gap ≤ -20 then 0.40
    else if price_gap ≤ -5 then 0.20
    else if price_gap ≥ 30 then -0.40
    else if price_gap ≥ 10 then -0.20
    else 0

def promoDelta : Option ℚ → ℚ
  | Option.none => 0
  | some promo =>
    if promo ≥ 0.30 then -0.45
    else if promo ≥ 0.20 then -0.30
    else if promo ≥ 0.10 then -0.15
    else 0

/-- `calculate_competitor_data_demand_boost` (src/agents/tools.py):
accumulates a single signed net score, then applies the competitor
step function. -/
def calculate_competitor_data_demand_boost (values : SignalValues) : CategoryBoost :=
  let price_gap := safe_float (pyGet values "Competitor Price Gap")
  let oos := safe_bool (pyGet values "Competitor Out-of-Stock Status")
  let promo := safe_float (pyGet values "Competitor Promo Intensity")
  let new_launch := safe_bool (pyGet values "Competitor New Launch Signal")
  let net_score :=
    priceGapDelta price_gap
      + (if oos = some true then 0.50 else 0)
      + promoDelta promo
      + (if new_launch = some true then -0.25 else 0)
  { boost_percent := step_boost_from_competitor_net net_score
    net_score := pyRound 4 net_score }

/-- Aggregate result of `calculate_final_demand_boost`. -/
structure FinalBoost where
  raw_total_boost_percent : ℚ
  total_boost_percent : ℚ
  cap_min : ℚ
  cap_max : ℚ
  social : CategoryBoost
  marketing : CategoryBoost
  trade_promo : CategoryBoost
  digital_shelf : CategoryBoost
  weather : CategoryBoost
  competitor : CategoryBoost
  deriving DecidableEq, Repr

/-- `calculate_final_demand_boost` (src/agents/tools.py): sums the six
category boost fractions, clamps into `[cap_min, cap_max]`
(defaults `-0.30` / `0.60`), and reports both totals rounded to four
decimals. -/
def calculate_final_demand_boost (values : SignalValues)
    (cap_min : ℚ := -0.30) (cap_max : ℚ := 0.60) : FinalBoost :=
  let social := calculate_social_signal_demand_boost values
  let marketing := calculate_marketing_spend_demand_boost values
  let trade_promo := calculate_trade_promo_demand_boost values
  let digital_shelf := calculate_digital_shelf_demand_boost values
  let weather := calculate_weather_environment_demand_boost values
  let competitor := calculate_competitor_data_demand_boost values
  let raw_total := social.boost_percent + marketing.boost_percent
    + trade_promo.boost_percent + digital_shelf.boost_percent
    + weather.boost_percent + competitor.boost_percent
  let total :=
    if raw_total < cap_min then cap_min
    else if raw_total > cap_max then cap_max
    else raw_total
  { raw_total_boost_percent := pyRound 4 raw_total
    total_boost_percent := pyRound 4 total
    cap_min := cap_min
    cap_max := cap_max
    social := social
    marketing := marketing
    trade_promo := trade_promo
    digital_shelf := digital_shelf
    weather := weather
    competitor := competitor }

/-- Result of `calculate_final_demand_forecast`. -/
structure Forecast where
  baseline_forecast : ℚ
  total_boost_percent : ℚ
  final_demand_forecast : ℚ
  deriving DecidableEq, Repr

/-- `calculate_final_demand_forecast` (src/agents/tools.py):
`baseline_f = _safe_float(baseline) or 0.0`, then
`round(baseline_f * (1 + total_boost), 2)`. -/
def calculate_final_demand_forecast (values : SignalValues) : Forecast :=
  let baseline_f := (safe_float (pyGet values "Statistical Baseline Forecast")).getD 0
  let boost := calculate_final_demand_boost values
  let total_boost := boost.total_boost_percent
  { baseline_forecast := baseline_f
    total_boost_percent := total_boost
    final_demand_forecast := pyRound 2 (baseline_f * (1 + total_boost)) }

/-- `required_by_tool` (src/agents/tools.py, inside
`critic_review_consensus_demand_boost`): required driver values per
fetch tool, POS excluded.  Note the first entry is the statistical
baseline tool, so there are seven entries, not six. -/
def required_by_tool : List (String × List String) :=
  [("fetch_consensus_demand_driver", ["Statistical Baseline Forecast"]),
   ("fetch_social_signal_drivers",
     ["Ingredient Trend Velocity", "Brand Sentiment Score",
      "Viral Hashtag Volume", "Influencer Mention Count"]),
   ("fetch_marketing_spend_drivers",
     ["Performance Marketing Spend", "Campaign Click-Through-Rate (CTR)",
      "Video Completion Rate", "Retargeting Pool Size"]),
   ("fetch_trade_promo_drivers",
     ["On-Platform Discount Depth", "Bundle Offer Active Status",
      "Flash Sale Participation", "Cart-Level Offer Conversion"]),
   ("fetch_digital_shelf_drivers",
     ["Share of Search (Keyword Rank)", "Product Detail Page (PDP) Views",
      "Buy Box Win Rate", "Rating & Review Velocity"]),
   ("fetch_weather_environment_drivers",
     ["Max Temperature Forecast", "Humidity Index", "UV Index",
      "Air Quality Index (AQI)"]),
   ("fetch_competitor_data_drivers",
     ["Competitor Price Gap", "Competitor Out-of-Stock Status",
      "Competitor Promo Intensity", "Competitor New Launch Signal"])]

/-- The six category fetch tools (everything in `required_by_tool`
except the statistical-baseline tool). -/
def sixCategoryTools : List String :=
  ["fetch_social_signal_drivers", "fetch_marketing_spend_drivers",
   "fetch_trade_promo_drivers", "fetch_digital_shelf_drivers",
   "fetch_weather_environment_drivers", "fetch_competitor_data_drivers"]

inductive HealthStatus where
  | ok
  | incomplete
  | missing_context_data
  deriving DecidableEq, Repr

structure ToolHealth where
  status : HealthStatus
  missing : List String
  nulls : List String
  deriving DecidableEq, Repr

/-- Per-tool health check of `critic_review_consensus_demand_boost`
(non-empty signal set branch): `missing` are required names absent
from the values dict, `nulls` are required names present with value
`None`. -/
def toolHealthFor (values : SignalValues) (required_names : List String) : ToolHealth :=
  let missing := required_names.filter (fun n => (values.lookup n).isNone)
  let nulls := required_names.filter (fun n => values.lookup n = some .none)
  if missing ≠ [] ∨ nulls ≠ [] then
    { status := .incomplete, missing := missing, nulls := nulls }
  else
    { status := .ok, missing := [], nulls := [] }

structure CriticResult where
  upper_threshold : ℚ
  lower_threshold : ℚ
  total_boost_percent : ℚ
  outside_thresholds : Bool
  decision : String
  tool_health : List (String × ToolHealth)
  rerun_recommendations : List String
  deriving DecidableEq, Repr

/-- The `total = float(final_boost["total_boost_percent"])` input of
the critic. -/
def critic_total (values : SignalValues) : ℚ :=
  (calculate_final_demand_boost values).total_boost_percent

/-- `outside_thresholds = total > upper_threshold or total < lower_threshold`. -/
def critic_outside_thresholds (values : SignalValues)
    (upper_threshold lower_threshold : ℚ) : Bool :=
  decide (critic_total values > upper_threshold) ||
    decide (critic_total values < lower_threshold)

/-- The `tool_health` dict of the critic: on an empty signal set every
required tool is `missing_context_data` with all its required names
missing; otherwise each tool gets its per-tool health check. -/
def critic_tool_health (values : SignalValues) : List (String × ToolHealth) :=
  if values = [] then
    required_by_tool.map (fun p =>
      (p.1, { status := .missing_context_data, missing := p.2, nulls := [] }))
  else
    required_by_tool.map (fun p => (p.1, toolHealthFor values p.2))

/-- The `rerun_recommendations` list of the critic: all required tools
on an empty signal set, otherwise the tools whose health is not ok, in
tool order. -/
def critic_rerun_recommendations (values : SignalValues) : List String :=
  if values = [] then
    required_by_tool.map Prod.fst
  else
    ((required_by_tool.map (fun p => (p.1, toolHealthFor values p.2))).filter
      (fun p => p.2.status ≠ .ok)).map Prod.fst

/-- `all_tools_ok = all(...) if tool_health else False`. -/
def critic_all_tools_ok (values : SignalValues) : Bool :=
  if critic_tool_health values = [] then false
  else (critic_tool_health values).all (fun p => p.2.status = .ok)

/-- The decision routing of the critic (the four-way table). -/
def critic_decision (values : SignalValues)
    (upper_threshold lower_threshold : ℚ) : String :=
  if critic_outside_thresholds values upper_threshold lower_threshold then
    if critic_all_tools_ok values then "route_to_human_approval" else "ask_actor_rerun"
  else
    if critic_all_tools_ok values then "within_thresholds" else "ask_actor_rerun"

/-- `critic_review_consensus_demand_boost` (src/agents/tools.py):
recomputes the aggregate boost, checks thresholds, checks per-tool
driver-value health, and produces the routing decision string. -/
def critic_review_consensus_demand_boost (values : SignalValues)
    (upper_threshold : ℚ := 0.30) (lower_threshold : ℚ := -0.20) : CriticResult :=
  { upper_threshold := upper_threshold
    lower_threshold := lower_threshold
    total_boost_percent := critic_total values
    outside_thresholds := critic_outside_thresholds values upper_threshold lower_threshold
    decision := critic_decision values upper_threshold lower_threshold
    tool_health := critic_tool_health values
    rerun_recommendations := critic_rerun_recommendations values }

/-!
## Workflow nodes (src/graph/demand_flow.py)
-/

/-- `route_node` (src/graph/demand_flow.py): decides the next node
from the critic decision string (taken from the critic result dict,
`None` when absent), the critic rerun recommendations, and the
`attempt` / `max_retries` integers of the state.  Returns the route
string stored in `state["route"]`. -/
def route_node (decision : Option String) (rerun_recommendations : Option (List String))
    (attempt : ℤ) (max_retries : ℤ) : String :=
  if decision = some "ask_actor_rerun" then
    let reruns := rerun_recommendations.getD []
    if attempt = 1 ∧ max_retries ≥ 2 ∧ reruns ≠ [] then "rerun" else "finalize"
  else if decision = some "route_to_human_approval" then "human_approval"
  else "finalize"

inductive ApprovalStatus where
  | pending
  | approved
  | rejected
  | not_required
  deriving DecidableEq, Repr

/-- Python `c.lower()` on an ASCII character. -/
def pyLowerChar (c : Char) : Char :=
  if 'A' ≤ c ∧ c ≤ 'Z' then Char.ofNat (c.toNat + 32) else c

/-- Python `s.strip().lower()` on the character content of a string. -/
def pyStripLower (s : String) : List Char :=
  (((s.data.dropWhile Char.isWhitespace).reverse.dropWhile
      Char.isWhitespace).reverse).map pyLowerChar

def approveSynonyms : List (List Char) :=
  ["approve".data, "approved".data, "yes".data, "y".data]

def rejectSynonyms : List (List Char) :=
  ["reject".data, "rejected".data, "no".data, "n".data]

/-- `human_approval_node` (src/graph/demand_flow.py), restricted to
the fields it touches: it reads `state.get("human_decision")`
(defaulting to the empty string), strips and lowercases it, and sets
`approval_status` to `approved` / `rejected` / `pending` from the
synonym sets alone.  The stored `approval_status` is an input of the
node but is never consulted.  Returns the new
`(approval_status, human_decision)` pair. -/
def human_approval_node (stored_status : Option ApprovalStatus)
    (human_decision : Option String) : ApprovalStatus × Option String :=
  let decision := pyStripLower (human_decision.getD "")
  if decision ∈ approveSynonyms then (.approved, some "approve")
  else if decision ∈ rejectSynonyms then (.rejected, some "reject")
  else (.pending, human_decision)

/-- One critic verdict, as consumed by `route_node`: the decision
string of the critic result and its rerun recommendations. -/
abbrev CriticVerdict := Option String × List String

/-- The per-item Actor→Critic→route loop of the compiled graph
(src/graph/demand_flow.py, `build_demand_flow_graph`): starting from
`set_current_sku` the state has `attempt = 1`; each iteration invokes
the Actor (counted), then the Critic (an arbitrary verdict per
attempt), then `route_node`; the `"rerun"` route goes through
`bump_attempt_node` (`attempt += 1`) back to the Actor, every other
route leaves the loop.  `fuel` bounds the recursion; the theorems
show two units are never exceeded. -/
def run_item_loop (critic : ℤ → CriticVerdict) (max_retries : ℤ) :
    ℕ → ℤ → ℕ → ℕ × ℤ
  | 0, attempt, actor_count => (actor_count, attempt)
  | fuel + 1, attempt, actor_count =>
    let actor_count := actor_count + 1
    let verdict := critic attempt
    let route := route_node verdict.1 (some verdict.2) attempt max_retries
    if route = "rerun" then
      run_item_loop critic max_retries fuel (attempt + 1) actor_count
    else (actor_count, attempt)

/-!
## The planned-consensus store (src/DBmock/consensus_demand.py)

A record is a JSON object: an association list from field name to
value.  `_now_iso()` timestamps are modelled as an explicit `now`
argument to `upsert_consensus_demand`.
-/

namespace Store

/-- A JSON value as stored in `consensus_demand_store.json`. -/
inductive StoreVal where
  | str (s : String)
  | num (q : ℚ)
  | boolean (b : Bool)
  | null
  deriving DecidableEq, Repr

/-- One stored record (a JSON object). -/
abbrev Row := List (String × StoreVal)

/-- Python `str(v)` as used on key fields.  String values pass
through unchanged; the rendering of the other shapes only needs to be
a fixed function of the value. -/
def strOf : StoreVal → String
  | .str s => s
  | .num q => toString q
  | .boolean true => "True"
  | .boolean false => "False"
  | .null => "None"

/-- `row.get(f, default)`. -/
def rowGetD (r : Row) (f : String) (dflt : StoreVal) : StoreVal :=
  (r.lookup f).getD dflt

/-- `_key(row)`: the four key fields, each via `str(row.get(f, ""))`. -/
def rowKey (r : Row) : String × String × String × String :=
  (strOf (rowGetD r "sku_id" (.str "")),
   strOf (rowGetD r "customer_id" (.str "")),
   strOf (rowGetD r "location_id" (.str "")),
   strOf (rowGetD r "as_of_date" (.str "")))

/-- `row[f] = v` on a dict: replace the value in place when the field
exists, append the field otherwise. -/
def setField (r : Row) (f : String) (v : StoreVal) : Row :=
  match r with
  | [] => [(f, v)]
  | (g, w) :: rest => if g = f then (f, v) :: rest else (g, w) :: setField rest f v

/-- A value Python's `isinstance(v, (int, float))` accepts, converted
by `float(v)` (booleans count as integers). -/
def toNumber : StoreVal → Option ℚ
  | .num q => some q
  | .boolean b => some (if b then 1 else 0)
  | _ => Option.none

/-- Legacy normalization in `load_consensus_demands`: when no
`total_boost_fraction` is present (absent or `None`) and
`total_boost_percent` is numeric in `[-1.0, 1.0]`, the percent was
stored as a fraction; repair both fields. -/
def normalizeRow (r : Row) : Row :=
  let tbp := rowGetD r "total_boost_percent" .null
  let tbf := rowGetD r "total_boost_fraction" .null
  match tbf, toNumber tbp with
  | .null, some frac =>
    if -1 ≤ frac ∧ frac ≤ 1 then
      setField (setField r "total_boost_fraction" (.num frac))
        "total_boost_percent" (.num (pyRound 2 (frac * 100)))
    else r
  | _, _ => r

/-- `str(row.get("updated_at", ""))`. -/
def updatedAt (r : Row) : String :=
  strOf (rowGetD r "updated_at" (.str ""))

/-- `latest[k] = row` on the dedupe dict: replace the row bound to
key `k` in place, keeping dict insertion order, appending when the
key is new. -/
def dictStore : List ((String × String × String × String) × Row) →
    (String × String × String × String) → Row →
    List ((String × String × String × String) × Row)
  | [], k, row => [(k, row)]
  | (k', r') :: rest, k, row =>
    if k' = k then (k, row) :: rest else (k', r') :: dictStore rest k row

/-- The dedupe loop of `load_consensus_demands`: a dict keyed by
`_key`, keeping the row with the lexicographically greatest (ties:
latest seen) `updated_at`.  Dict insertion order — first occurrence
of each key — is preserved, as in Python. -/
def dedupeStep (latest : List ((String × String × String × String) × Row)) (row : Row) :
    List ((String × String × String × String) × Row) :=
  let k := rowKey row
  match latest.lookup k with
  | Option.none => latest ++ [(k, row)]
  | some existing =>
    if updatedAt existing ≤ updatedAt row then
      dictStore latest k row
    else latest

/-- The sort key of `load_consensus_demands`:
`(as_of_date, location_id, customer_id, sku_id)`, compared as Python
compares string tuples (lexicographically). -/
def sortKeyLe (a b : Row) : Bool :=
  let ka := (strOf (rowGetD a "as_of_date" (.str "")), strOf (rowGetD a "location_id" (.str "")),
             strOf (rowGetD a "customer_id" (.str "")), strOf (rowGetD a "sku_id" (.str "")))
  let kb := (strOf (rowGetD b "as_of_date" (.str "")), strOf (rowGetD b "location_id" (.str "")),
             strOf (rowGetD b "customer_id" (.str "")), strOf (rowGetD b "sku_id" (.str "")))
  decide (ka.1 < kb.1) ||
    (ka.1 = kb.1 && (decide (ka.2.1 < kb.2.1) ||
      (ka.2.1 = kb.2.1 && (decide (ka.2.2.1 < kb.2.2.1) ||
        (ka.2.2.1 = kb.2.2.1 && decide (ka.2.2.2 ≤ kb.2.2.2))))))

/-- Keep `updated_at` of `(dedupeStep latest row).lookup` monotone:
the helper preserves the key set; stated later where needed. -/
def load_consensus_demands (stored : List Row) : List Row :=
  let normalized := stored.map normalizeRow
  let latest := normalized.foldl dedupeStep []
  (latest.map Prod.snd).mergeSort sortKeyLe

/-- The row `upsert_consensus_demand` prepares before scanning:
`dict(record)` with `created_at` set when absent (`setdefault`) and
`updated_at` always set to the current timestamp. -/
def prepRow (record : Row) (now : String) : Row :=
  setField
    (if (record.lookup "created_at").isNone
      then setField record "created_at" (.str now) else record)
    "updated_at" (.str now)

/-- The replace-or-append scan of `upsert_consensus_demand`: find the
first row with the same `_key`, replace it with the fresh row carrying
the existing row's `created_at` when it has one, else append. -/
def replaceFirst : List Row → Row → List Row
  | [], row => [row]
  | e :: rest, row =>
    if rowKey e = rowKey row then
      setField row "created_at" (rowGetD e "created_at" (rowGetD row "created_at" .null)) :: rest
    else e :: replaceFirst rest row

/-- `upsert_consensus_demand` (src/DBmock/consensus_demand.py): load
(normalize + dedupe + sort), prepare the timestamped row, replace the
first row sharing the record's key (preserving its `created_at`),
else append; the returned list is the new store contents written to
disk. -/
def upsert_consensus_demand (stored : List Row) (record : Row) (now : String) :
    List Row :=
  replaceFirst (load_consensus_demands stored) (prepRow record now)

/-- A concrete planned record used to exercise the upsert. -/
def sampleRecord : Row :=
  [("sku_id", .str "S"), ("qty", .num 5)]

/-- The row the store holds after upserting `sampleRecord` twice into
an empty store at timestamps `"T1"` then `"T2"`. -/
def sampleFinalRow : Row :=
  [("sku_id", .str "S"), ("qty", .num 5),
   ("created_at", .str "T1"), ("updated_at", .str "T2")]

/-- The keys held in the dedupe dict are pairwise distinct (a Python
dict cannot hold a key twice). -/
def DistinctKeys (l : List ((String × String × String × String) × Row)) : Prop :=
  l.Pairwise (fun a b => a.1 ≠ b.1)

/-- Every row held in the dedupe dict is filed under its own `_key`. -/
def Consistent (l : List ((String × String × String × String) × Row)) : Prop :=
  ∀ p ∈ l, rowKey p.2 = p.1

end Store

/-- A rational that is a whole number of tenths (every step-function
output is one). -/
def IsTenth (q : ℚ) : Prop := ∃ k : ℤ, q = k / 10

/-- The signed step function as the spec's band list reads after
adding the band the source has between `1.20` and `1.40`: lower bound
inclusive per band, in the exact order
`≤-1.00→-0.30; ≤-0.70→-0.20; ≤-0.35→-0.10; <0.35→0; <0.60→0.10;
<0.80→0.20; <1.00→0.30; <1.20→0.40; <1.40→0.50; else→0.60`. -/
def signedStepBandList (score : ℚ) : ℚ :=
  if score ≤ -1.00 then -0.30
  else if score ≤ -0.70 then -0.20
  else if score ≤ -0.35 then -0.10
  else if score < 0.35 then 0.0
  else if score < 0.60 then 0.10
  else if score < 0.80 then 0.20
  else if score < 1.00 then 0.30
  else if score < 1.20 then 0.40
  else if score < 1.40 then 0.50
  else 0.60

/-- `clamp` as the spec words it: saturate into `[lo, hi]`. -/
def clampQ (q lo hi : ℚ) : ℚ :=
  if q < lo then lo else if q > hi then hi else q

/-- A signal value set holding every one of the 24 category driver
values (all non-null, each falling in a neutral band so every
category boost is zero) but no `Statistical Baseline Forecast`: the
six category tools are healthy, the aggregate is inside the default
thresholds, yet the critic must still answer for the missing
baseline. -/
def signalsNoBaseline : SignalValues :=
  [("Ingredient Trend Velocity", .num 0),
   ("Brand Sentiment Score", .num 55),
   ("Viral Hashtag Volume", .num 300),
   ("Influencer Mention Count", .num 3),
   ("Performance Marketing Spend", .num 40000),
   ("Campaign Click-Through-Rate (CTR)", .num 0.011),
   ("Video Completion Rate", .num 0.15),
   ("Retargeting Pool Size", .num 2000),
   ("On-Platform Discount Depth", .num 0.03),
   ("Bundle Offer Active Status", .boolean false),
   ("Flash Sale Participation", .boolean false),
   ("Cart-Level Offer Conversion", .num 0.025),
   ("Share of Search (Keyword Rank)", .num 12),
   ("Product Detail Page (PDP) Views", .num 16000),
   ("Buy Box Win Rate", .num 0.86),
   ("Rating & Review Velocity", .num 5),
   ("Max Temperature Forecast", .num 24),
   ("Humidity Index", .num 0.4),
   ("UV Index", .num 2),
   ("Air Quality Index (AQI)", .num 50),
   ("Competitor Price Gap", .num 0),
   ("Competitor Out-of-Stock Status", .boolean false),
   ("Competitor Promo Intensity", .num 0.05),
   ("Competitor New Launch Signal", .boolean false)]

/-!
## Theorems
-/

theorem IsTenth.add {a b : ℚ} (ha : IsTenth a) (hb : IsTenth b) : IsTenth (a + b) := by
  obtain ⟨j, hj⟩ := ha
  obtain ⟨k, hk⟩ := hb
  exact ⟨j + k, by rw [hj, hk]; push_cast; ring⟩

theorem isTenth_step_signed (s : ℚ) : IsTenth (step_boost_from_signed_score s) := by
  unfold step_boost_from_signed_score
  split_ifs
  · exact ⟨-3, by norm_num⟩
  · exact ⟨-2, by norm_num⟩
  · exact ⟨-1, by norm_num⟩
  · exact ⟨0, by norm_num⟩
  · exact ⟨1, by norm_num⟩
  · exact ⟨2, by norm_num⟩
  · exact ⟨3, by norm_num⟩
  · exact ⟨4, by norm_num⟩
  · exact ⟨5, by norm_num⟩
  · exact ⟨6, by norm_num⟩

theorem isTenth_step_competitor (s : ℚ) : IsTenth (step_boost_from_competitor_net s) := by
  unfold step_boost_from_competitor_net
  split_ifs
  · exact ⟨-3, by norm_num⟩
  · exact ⟨-2, by norm_num⟩
  · exact ⟨-1, by norm_num⟩
  · exact ⟨0, by norm_num⟩
  · exact ⟨1, by norm_num⟩
  · exact ⟨2, by norm_num⟩
  · exact ⟨3, by norm_num⟩

theorem pyRound_four_of_isTenth {q : ℚ} (h : IsTenth q) : pyRound 4 q = q := by
  obtain ⟨k, hk⟩ := h
  exact pyRound_eq_self ⟨k * 1000, by rw [hk]; push_cast; ring⟩

/-- C1 (counterexample): the claim's band list ends with
`<1.20→0.40; else→0.60`, so it asserts that every score `≥ 1.20`
yields `0.60`; but the source maps `1.30` (which is `≥ 1.20`) to
`0.50`, not `0.60`. -/
theorem C1_counterexample :
    (1.20 : ℚ) ≤ 1.30 ∧
      step_boost_from_signed_score 1.30 = 0.50 ∧
      step_boost_from_signed_score 1.30 ≠ 0.60 := by
  refine ⟨by norm_num, ?_, ?_⟩ <;> norm_num [step_boost_from_signed_score]

/-- C1 (amended): the signed step function used by the social,
marketing, trade-promo, digital-shelf and weather calculators maps
every real net score through the ten-band list
`≤-1.00→-0.30; ≤-0.70→-0.20; ≤-0.35→-0.10; <0.35→0; <0.60→0.10;
<0.80→0.20; <1.00→0.30; <1.20→0.40; <1.40→0.50; else→0.60`
(the claim's list plus the `0.50` band for `1.20 ≤ score < 1.40`). -/
theorem C1_theorem (score : ℚ) :
    step_boost_from_signed_score score = signedStepBandList score := rfl

/-- C2: with the default caps, `calculate_final_demand_boost` reports
`raw_total` as the exact (unweighted) sum of the six category boost
fractions, reports the clamped total as `clamp(raw_total, -0.30, 0.60)`
(saturating), and the clamped total therefore lies in
`[-0.30, 0.60]` inclusive, whatever the signal values. -/
theorem C2_theorem (values : SignalValues) :
    (calculate_final_demand_boost values).raw_total_boost_percent =
        (calculate_social_signal_demand_boost values).boost_percent
          + (calculate_marketing_spend_demand_boost values).boost_percent
          + (calculate_trade_promo_demand_boost values).boost_percent
          + (calculate_digital_shelf_demand_boost values).boost_percent
          + (calculate_weather_environment_demand_boost values).boost_percent
          + (calculate_competitor_data_demand_boost values).boost_percent ∧
      (calculate_final_demand_boost values).total_boost_percent =
        clampQ (calculate_final_demand_boost values).raw_total_boost_percent (-0.30) 0.60 ∧
      -0.30 ≤ (calculate_final_demand_boost values).total_boost_percent ∧
      (calculate_final_demand_boost values).total_boost_percent ≤ 0.60 := by
  obtain ⟨raw, hraw⟩ :
      ∃ raw, raw = (calculate_social_signal_demand_boost values).boost_percent
        + (calculate_marketing_spend_demand_boost values).boost_percent
        + (calculate_trade_promo_demand_boost values).boost_percent
        + (calculate_digital_shelf_demand_boost values).boost_percent
        + (calculate_weather_environment_demand_boost values).boost_percent
        + (calculate_competitor_data_demand_boost values).boost_percent := ⟨_, rfl⟩
  have hsum : IsTenth raw := by
    rw [hraw]
    exact (((((isTenth_step_signed _).add (isTenth_step_signed _)).add
      (isTenth_step_signed _)).add (isTenth_step_signed _)).add
      (isTenth_step_signed _)).add (isTenth_step_competitor _)
  have hclamp : IsTenth (if raw < -0.30 then (-0.30 : ℚ) else if raw > 0.60 then 0.60 else raw) := by
    split_ifs
    · exact ⟨-3, by norm_num⟩
    · exact ⟨6, by norm_num⟩
    · exact hsum
  have h1 : (calculate_final_demand_boost values).raw_total_boost_percent = pyRound 4 raw := by
    rw [hraw]; rfl
  have h2 : (calculate_final_demand_boost values).total_boost_percent =
      pyRound 4 (if raw < -0.30 then -0.30 else if raw > 0.60 then 0.60 else raw) := by
    rw [hraw]; rfl
  rw [h1, h2, pyRound_four_of_isTenth hsum, pyRound_four_of_isTenth hclamp, ← hraw]
  refine ⟨rfl, ?_, ?_, ?_⟩
  · unfold clampQ
    rfl
  · split_ifs with hlo hhi
    · norm_num
    · norm_num
    · linarith [not_lt.mp hlo]
  · split_ifs with hlo hhi
    · norm_num
    · norm_num
    · linarith [not_lt.mp hhi]

/-- `route_node` takes the rerun route exactly when the decision is
`ask_actor_rerun`, the attempt counter is `1`, at least two retries
are allowed, and the recommendations are non-empty. -/
theorem route_node_rerun_cond (decision : Option String)
    (rerun_recommendations : Option (List String)) (attempt max_retries : ℤ) :
    route_node decision rerun_recommendations attempt max_retries = "rerun" ↔
      (decision = some "ask_actor_rerun" ∧ attempt = 1 ∧ max_retries ≥ 2 ∧
        rerun_recommendations.getD [] ≠ []) := by
  constructor
  · intro h
    by_cases h1 : decision = some "ask_actor_rerun"
    · refine ⟨h1, ?_⟩
      by_cases hc : attempt = 1 ∧ max_retries ≥ 2 ∧ rerun_recommendations.getD [] ≠ []
      · exact hc
      · exfalso
        revert h
        unfold route_node
        simp [h1, hc]
    · exfalso
      revert h
      unfold route_node
      by_cases h2 : decision = some "route_to_human_approval" <;> simp [h1, h2]
  · rintro ⟨h1, ha, hm, hr⟩
    unfold route_node
    simp [h1, ha, hm, hr]

/-- Once the attempt counter has left `1`, the Actor/Critic loop runs
at most one more iteration: the rerun route requires `attempt == 1`. -/
theorem run_item_loop_exit (critic : ℤ → CriticVerdict) (m : ℤ) (fuel : ℕ) (a : ℤ)
    (c : ℕ) (h : a ≠ 1) :
    (run_item_loop critic m fuel a c).1 ≤ c + 1 ∧ (run_item_loop critic m fuel a c).2 = a := by
  cases fuel with
  | zero => exact ⟨Nat.le_succ c, rfl⟩
  | succ n =>
    have hr : route_node (critic a).1 (some (critic a).2) a m ≠ "rerun" := by
      intro hcontra
      rw [route_node_rerun_cond] at hcontra
      exact h hcontra.2.1
    have hstep : run_item_loop critic m (n + 1) a c =
        if route_node (critic a).1 (some (critic a).2) a m = "rerun" then
          run_item_loop critic m n (a + 1) (c + 1)
        else (c + 1, a) := rfl
    rw [hstep, if_neg hr]
    exact ⟨le_refl _, rfl⟩

/-- C4: the rerun route is taken exactly when the critic said
`ask_actor_rerun`, `attempt == 1`, `max_retries ≥ 2` and the rerun
recommendations are non-empty (every other `ask_actor_rerun` falls
through to `finalize`); consequently, along the per-item
Actor→Critic→route loop started at `attempt = 1`, the Actor is
invoked at most twice and the attempt counter never exceeds `2`, for
every critic behaviour, every `max_retries`, and every iteration
budget. -/
theorem C4_theorem :
    (∀ (decision : Option String) (reruns : List String) (attempt max_retries : ℤ),
        route_node decision (some reruns) attempt max_retries = "rerun" ↔
          (decision = some "ask_actor_rerun" ∧ attempt = 1 ∧
            max_retries ≥ 2 ∧ reruns ≠ [])) ∧
    (∀ (fuel : ℕ) (critic : ℤ → CriticVerdict) (max_retries : ℤ),
        (run_item_loop critic max_retries fuel 1 0).1 ≤ 2 ∧
        (run_item_loop critic max_retries fuel 1 0).2 ≤ 2) := by
  constructor
  · intro decision reruns attempt max_retries
    rw [route_node_rerun_cond]
    simp
  · intro fuel critic max_retries
    cases fuel with
    | zero =>
      have h0 : run_item_loop critic max_retries 0 1 0 = (0, 1) := rfl
      rw [h0]
      exact ⟨by norm_num, by norm_num⟩
    | succ n =>
      have hstep : run_item_loop critic max_retries (n + 1) 1 0 =
          if route_node (critic 1).1 (some (critic 1).2) 1 max_retries = "rerun" then
            run_item_loop critic max_retries n (1 + 1) (0 + 1)
          else (0 + 1, 1) := rfl
      rw [hstep]
      by_cases hroute : route_node (critic 1).1 (some (critic 1).2) 1 max_retries = "rerun"
      · rw [if_pos hroute]
        have hnext := run_item_loop_exit critic max_retries n (1 + 1) (0 + 1) (by norm_num)
        exact ⟨le_trans hnext.1 (by norm_num), by rw [hnext.2]; norm_num⟩
      · rw [if_neg hroute]
        exact ⟨by norm_num, by norm_num⟩

/-- C10: `route_node` is total on its inputs: whatever the critic
decision (present or absent) and recommendations, it returns one of
exactly `"rerun"`, `"human_approval"`, `"finalize"`, and every
decision other than the two recognized non-final ones — including a
missing critic result — maps to `"finalize"`. -/
theorem C10_theorem (decision : Option String) (rerun_recommendations : Option (List String))
    (attempt max_retries : ℤ) :
    (route_node decision rerun_recommendations attempt max_retries = "rerun" ∨
      route_node decision rerun_recommendations attempt max_retries = "human_approval" ∨
      route_node decision rerun_recommendations attempt max_retries = "finalize") ∧
    (decision ≠ some "ask_actor_rerun" → decision ≠ some "route_to_human_approval" →
      route_node decision rerun_recommendations attempt max_retries = "finalize") := by
  constructor
  · by_cases h1 : decision = some "ask_actor_rerun"
    · by_cases hc : attempt = 1 ∧ max_retries ≥ 2 ∧ rerun_recommendations.getD [] ≠ []
      · left
        rw [route_node_rerun_cond]
        exact ⟨h1, hc⟩
      · right; right
        unfold route_node
        simp [h1, hc]
    · by_cases h2 : decision = some "route_to_human_approval"
      · right; left
        unfold route_node
        simp [h1, h2]
      · right; right
        unfold route_node
        simp [h1, h2]
  · intro h1 h2
    unfold route_node
    simp [h1, h2]

/-- C10 (witness): a state with no critic result routes to
`"finalize"` without error. -/
theorem C10_witness :
    route_node Option.none Option.none 1 1 = "finalize" :=
  (C10_theorem Option.none Option.none 1 1).2 (by simp) (by simp)

/-- C7 (counterexample): the human-approval step is not a no-op on an
item whose stored status is already `rejected`: supplying the
decision `"approve"` flips the status to `approved`.  The node never
consults the stored status. -/
theorem C7_counterexample :
    human_approval_node (some ApprovalStatus.rejected) (some "approve") =
        (ApprovalStatus.approved, some "approve") ∧
      ApprovalStatus.approved ≠ ApprovalStatus.rejected := by
  exact ⟨by decide, by decide⟩

/-- C7 (amended): the human-approval step computes the new approval
status from the supplied decision string alone, ignoring the stored
status entirely (so applying a decision to an already
approved/rejected item re-applies it rather than being a no-op); a
pending item still never transitions to approved or rejected without
an explicit approve/reject synonym. -/
theorem C7_theorem (st st2 : Option ApprovalStatus) (d : Option String) :
    (human_approval_node st d).1 = (human_approval_node st2 d).1 ∧
    ((human_approval_node st d).1 = ApprovalStatus.approved ↔
      pyStripLower (d.getD "") ∈ approveSynonyms) ∧
    ((human_approval_node st d).1 = ApprovalStatus.rejected ↔
      (pyStripLower (d.getD "") ∉ approveSynonyms ∧
        pyStripLower (d.getD "") ∈ rejectSynonyms)) ∧
    ((human_approval_node st d).1 = ApprovalStatus.pending ↔
      (pyStripLower (d.getD "") ∉ approveSynonyms ∧
        pyStripLower (d.getD "") ∉ rejectSynonyms)) := by
  simp only [human_approval_node]
  split_ifs with h1 h2 <;> simp_all

/-- C8: any supplied decision string that is neither an approve
synonym nor a reject synonym after stripping and lowercasing —
including the empty string — is treated as "no decision yet": the
status becomes `pending`, the decision string is left as supplied,
and (the node being a total function) no error is raised. -/
theorem C8_theorem (st : Option ApprovalStatus) (d : String)
    (h1 : pyStripLower d ∉ approveSynonyms) (h2 : pyStripLower d ∉ rejectSynonyms) :
    (human_approval_node st (some d)).1 = ApprovalStatus.pending ∧
    (human_approval_node st (some d)).2 = some d := by
  unfold human_approval_node
  simp [h1, h2]

/-- C8 (witness): the empty decision string yields `pending`. -/
theorem C8_witness :
    (human_approval_node Option.none (some "")).1 = ApprovalStatus.pending ∧
    (human_approval_node Option.none (some "")).2 = some "" :=
  C8_theorem Option.none "" (by decide) (by decide)

theorem pyRound_zero (n : ℕ) : pyRound n 0 = 0 :=
  pyRound_eq_self ⟨0, by norm_num⟩

/-- The critic's `tool_health` dict is never empty: `required_by_tool`
has seven entries. -/
theorem critic_tool_health_ne_nil (values : SignalValues) :
    critic_tool_health values ≠ [] := by
  unfold critic_tool_health required_by_tool
  split_ifs <;> simp

/-- C3 (amended): the critic's decision table, with health taken over
all seven required tools (the six category fetch tools plus the
statistical-baseline driver tool, which the source also checks):
`within_thresholds` iff not outside and all seven tools ok;
`route_to_human_approval` iff outside and all seven tools ok;
`ask_actor_rerun` iff some tool is not ok; and `outside_thresholds`
holds exactly when the clamped total is strictly above the upper or
strictly below the lower threshold. -/
theorem C3_theorem (values : SignalValues) (upper lower : ℚ) :
    ((critic_review_consensus_demand_boost values upper lower).decision =
        "within_thresholds" ↔
      ((critic_review_consensus_demand_boost values upper lower).outside_thresholds = false ∧
        ((critic_review_consensus_demand_boost values upper lower).tool_health.all
          (fun p => p.2.status = HealthStatus.ok)) = true)) ∧
    ((critic_review_consensus_demand_boost values upper lower).decision =
        "route_to_human_approval" ↔
      ((critic_review_consensus_demand_boost values upper lower).outside_thresholds = true ∧
        ((critic_review_consensus_demand_boost values upper lower).tool_health.all
          (fun p => p.2.status = HealthStatus.ok)) = true)) ∧
    ((critic_review_consensus_demand_boost values upper lower).decision =
        "ask_actor_rerun" ↔
      ((critic_review_consensus_demand_boost values upper lower).tool_health.all
        (fun p => p.2.status = HealthStatus.ok)) = false) ∧
    ((critic_review_consensus_demand_boost values upper lower).outside_thresholds = true ↔
      ((critic_review_consensus_demand_boost values upper lower).total_boost_percent > upper ∨
        (critic_review_consensus_demand_boost values upper lower).total_boost_percent < lower)) := by
  show (critic_decision values upper lower = "within_thresholds" ↔
      (critic_outside_thresholds values upper lower = false ∧
        ((critic_tool_health values).all (fun p => p.2.status = HealthStatus.ok)) = true)) ∧
    (critic_decision values upper lower = "route_to_human_approval" ↔
      (critic_outside_thresholds values upper lower = true ∧
        ((critic_tool_health values).all (fun p => p.2.status = HealthStatus.ok)) = true)) ∧
    (critic_decision values upper lower = "ask_actor_rerun" ↔
      ((critic_tool_health values).all (fun p => p.2.status = HealthStatus.ok)) = false) ∧
    (critic_outside_thresholds values upper lower = true ↔
      (critic_total values > upper ∨ critic_total values < lower))
  have hall : critic_all_tools_ok values =
      (critic_tool_health values).all (fun p => p.2.status = HealthStatus.ok) := by
    unfold critic_all_tools_ok
    rw [if_neg (critic_tool_health_ne_nil values)]
  have h4 : critic_outside_thresholds values upper lower = true ↔
      (critic_total values > upper ∨ critic_total values < lower) := by
    unfold critic_outside_thresholds
    simp
  refine ⟨?_, ?_, ?_, h4⟩ <;>
    · cases ho : critic_outside_thresholds values upper lower <;>
        cases ha : (critic_tool_health values).all (fun p => p.2.status = HealthStatus.ok) <;>
          simp [critic_decision, ho, hall, ha]

/-- C5 (counterexample): on an empty signal value set the critic's
`rerun_recommendations` has seven entries — one per required tool,
the six category tools plus the statistical-baseline tool — not the
six the claim states. -/
theorem C5_counterexample :
    (critic_review_consensus_demand_boost [] 0.30 (-0.20)).rerun_recommendations.length = 7 ∧
    (critic_review_consensus_demand_boost [] 0.30 (-0.20)).rerun_recommendations.length ≠ 6 := by
  exact ⟨rfl, by decide⟩

/-- C5 (amended): on an empty signal value set the critic marks all
seven required tools (six categories plus the statistical-baseline
tool) with status `missing_context_data`, `rerun_recommendations`
lists exactly those seven tools, and the decision is
`ask_actor_rerun` whatever the thresholds. -/
theorem C5_theorem (upper lower : ℚ) :
    (critic_review_consensus_demand_boost [] upper lower).tool_health =
      required_by_tool.map (fun p =>
        (p.1, { status := HealthStatus.missing_context_data, missing := p.2, nulls := [] })) ∧
    ((critic_review_consensus_demand_boost [] upper lower).tool_health.all
      (fun p => p.2.status = HealthStatus.missing_context_data)) = true ∧
    (critic_review_consensus_demand_boost [] upper lower).rerun_recommendations =
      required_by_tool.map Prod.fst ∧
    (critic_review_consensus_demand_boost [] upper lower).rerun_recommendations.length = 7 ∧
    (critic_review_consensus_demand_boost [] upper lower).decision = "ask_actor_rerun" := by
  refine ⟨rfl, rfl, rfl, rfl, ?_⟩
  show critic_decision [] upper lower = "ask_actor_rerun"
  have hko : critic_all_tools_ok [] = false := rfl
  unfold critic_decision
  rw [hko]
  cases ho : critic_outside_thresholds [] upper lower <;> simp [ho]

theorem social_boost_noBaseline :
    calculate_social_signal_demand_boost signalsNoBaseline = ⟨0, 0⟩ := by
  have h1 : safe_float (pyGet signalsNoBaseline "Ingredient Trend Velocity") = some 0 := rfl
  have h2 : safe_float (pyGet signalsNoBaseline "Brand Sentiment Score") = some 55 := rfl
  have h3 : safe_float (pyGet signalsNoBaseline "Viral Hashtag Volume") = some 300 := rfl
  have h4 : safe_float (pyGet signalsNoBaseline "Influencer Mention Count") = some 3 := rfl
  simp only [calculate_social_signal_demand_boost, h1, h2, h3, h4]
  norm_num [trendContrib, sentimentContrib, hashtagsContrib, influencerContrib,
    step_boost_from_signed_score, pyRound_zero]

theorem marketing_boost_noBaseline :
    calculate_marketing_spend_demand_boost signalsNoBaseline = ⟨0, 0⟩ := by
  have h1 : safe_float (pyGet signalsNoBaseline "Performance Marketing Spend") = some 40000 := rfl
  have h2 : safe_float (pyGet signalsNoBaseline "Campaign Click-Through-Rate (CTR)") = some 0.011 := rfl
  have h3 : safe_float (pyGet signalsNoBaseline "Video Completion Rate") = some 0.15 := rfl
  have h4 : safe_float (pyGet signalsNoBaseline "Retargeting Pool Size") = some 2000 := rfl
  simp only [calculate_marketing_spend_demand_boost, h1, h2, h3, h4]
  norm_num [spendContrib, ctrContrib, vcrContrib, retargetContrib,
    step_boost_from_signed_score, pyRound_zero]

theorem trade_promo_boost_noBaseline :
    calculate_trade_promo_demand_boost signalsNoBaseline = ⟨0, 0⟩ := by
  have h1 : safe_float (pyGet signalsNoBaseline "On-Platform Discount Depth") = some 0.03 := rfl
  have h2 : safe_bool (pyGet signalsNoBaseline "Bundle Offer Active Status") = some false := rfl
  have h3 : safe_bool (pyGet signalsNoBaseline "Flash Sale Participation") = some false := rfl
  have h4 : safe_float (pyGet signalsNoBaseline "Cart-Level Offer Conversion") = some 0.025 := rfl
  simp only [calculate_trade_promo_demand_boost, h1, h2, h3, h4]
  norm_num [discountContrib, cartConvContrib, step_boost_from_signed_score, pyRound_zero]

theorem digital_shelf_boost_noBaseline :
    calculate_digital_shelf_demand_boost signalsNoBaseline = ⟨0, 0.06⟩ := by
  have h1 : safe_float (pyGet signalsNoBaseline "Share of Search (Keyword Rank)") = some 12 := rfl
  have h2 : safe_float (pyGet signalsNoBaseline "Product Detail Page (PDP) Views") = some 16000 := rfl
  have h3 : safe_float (pyGet signalsNoBaseline "Buy Box Win Rate") = some 0.86 := rfl
  have h4 : safe_float (pyGet signalsNoBaseline "Rating & Review Velocity") = some 5 := rfl
  have hr : pyRound 4 ((3 : ℚ) / 50) = 3 / 50 := pyRound_eq_self ⟨600, by norm_num⟩
  simp only [calculate_digital_shelf_demand_boost, h1, h2, h3, h4]
  norm_num [rankContrib, pdpContrib, buyboxContrib, reviewsContrib,
    step_boost_from_signed_score]
  norm_num [hr]

theorem weather_boost_noBaseline :
    calculate_weather_environment_demand_boost signalsNoBaseline = ⟨0, 0⟩ := by
  have h1 : safe_float (pyGet signalsNoBaseline "Max Temperature Forecast") = some 24 := rfl
  have h2 : safe_float (pyGet signalsNoBaseline "Humidity Index") = some 0.4 := rfl
  have h3 : safe_float (pyGet signalsNoBaseline "UV Index") = some 2 := rfl
  have h4 : safe_float (pyGet signalsNoBaseline "Air Quality Index (AQI)") = some 50 := rfl
  simp only [calculate_weather_environment_demand_boost, h1, h2, h3, h4]
  norm_num [tempContrib, humidityContrib, uvContrib, aqiContrib,
    step_boost_from_signed_score, pyRound_zero]

theorem competitor_boost_noBaseline :
    calculate_competitor_data_demand_boost signalsNoBaseline = ⟨0, 0⟩ := by
  have h1 : safe_float (pyGet signalsNoBaseline "Competitor Price Gap") = some 0 := rfl
  have h2 : safe_bool (pyGet signalsNoBaseline "Competitor Out-of-Stock Status") = some false := rfl
  have h3 : safe_float (pyGet signalsNoBaseline "Competitor Promo Intensity") = some 0.05 := rfl
  have h4 : safe_bool (pyGet signalsNoBaseline "Competitor New Launch Signal") = some false := rfl
  simp only [calculate_competitor_data_demand_boost, h1, h2, h3, h4]
  norm_num [priceGapDelta, promoDelta, step_boost_from_competitor_net, pyRound_zero]

theorem total_boost_noBaseline : critic_total signalsNoBaseline = 0 := by
  unfold critic_total
  have h : (calculate_final_demand_boost signalsNoBaseline).total_boost_percent =
      pyRound 4 (if (0 : ℚ) + 0 + 0 + 0 + 0 + 0 < -0.30 then -0.30
        else if (0 : ℚ) + 0 + 0 + 0 + 0 + 0 > 0.60 then 0.60
        else (0 : ℚ) + 0 + 0 + 0 + 0 + 0) := by
    show pyRound 4 (if (calculate_social_signal_demand_boost signalsNoBaseline).boost_percent
        + (calculate_marketing_spend_demand_boost signalsNoBaseline).boost_percent
        + (calculate_trade_promo_demand_boost signalsNoBaseline).boost_percent
        + (calculate_digital_shelf_demand_boost signalsNoBaseline).boost_percent
        + (calculate_weather_environment_demand_boost signalsNoBaseline).boost_percent
        + (calculate_competitor_data_demand_boost signalsNoBaseline).boost_percent < -0.30
        then -0.30
        else if (calculate_social_signal_demand_boost signalsNoBaseline).boost_percent
        + (calculate_marketing_spend_demand_boost signalsNoBaseline).boost_percent
        + (calculate_trade_promo_demand_boost signalsNoBaseline).boost_percent
        + (calculate_digital_shelf_demand_boost signalsNoBaseline).boost_percent
        + (calculate_weather_environment_demand_boost signalsNoBaseline).boost_percent
        + (calculate_competitor_data_demand_boost signalsNoBaseline).boost_percent > 0.60
        then 0.60
        else (calculate_social_signal_demand_boost signalsNoBaseline).boost_percent
        + (calculate_marketing_spend_demand_boost signalsNoBaseline).boost_percent
        + (calculate_trade_promo_demand_boost signalsNoBaseline).boost_percent
        + (calculate_digital_shelf_demand_boost signalsNoBaseline).boost_percent
        + (calculate_weather_environment_demand_boost signalsNoBaseline).boost_percent
        + (calculate_competitor_data_demand_boost signalsNoBaseline).boost_percent) = _
    rw [social_boost_noBaseline, marketing_boost_noBaseline, trade_promo_boost_noBaseline,
      digital_shelf_boost_noBaseline, weather_boost_noBaseline, competitor_boost_noBaseline]
  rw [h]
  norm_num [pyRound_zero]

/-- C3 (counterexample): on `signalsNoBaseline`, the clamped total is
inside the default thresholds and all six category tools are healthy,
yet the critic answers `ask_actor_rerun` rather than the
`within_thresholds` the claim's six-category decision table requires:
the source also demands the `Statistical Baseline Forecast` driver of
the seventh checked tool. -/
theorem C3_counterexample :
    (critic_review_consensus_demand_boost signalsNoBaseline 0.30 (-0.20)).outside_thresholds
        = false ∧
    (sixCategoryTools.all (fun t =>
      (((critic_review_consensus_demand_boost signalsNoBaseline 0.30
          (-0.20)).tool_health.lookup t).map ToolHealth.status) = some HealthStatus.ok)) = true ∧
    (critic_review_consensus_demand_boost signalsNoBaseline 0.30 (-0.20)).decision =
      "ask_actor_rerun" ∧
    ("ask_actor_rerun" : String) ≠ "within_thresholds" := by
  have houtside : critic_outside_thresholds signalsNoBaseline 0.30 (-0.20) = false := by
    unfold critic_outside_thresholds
    rw [total_boost_noBaseline]
    norm_num
  refine ⟨houtside, by decide, ?_, by decide⟩
  show critic_decision signalsNoBaseline 0.30 (-0.20) = "ask_actor_rerun"
  have hko : critic_all_tools_ok signalsNoBaseline = false := by decide
  unfold critic_decision
  rw [houtside, hko]
  simp

/-- C6: the final forecast equals
`round(baseline * (1 + clamped_total), 2)`, with the baseline drawn
from the `Statistical Baseline Forecast` signal and taken as `0`
whenever that signal is absent or not numeric (it is a number in
every case, never null). -/
theorem C6_theorem (values : SignalValues) :
    (calculate_final_demand_forecast values).baseline_forecast =
      (safe_float (pyGet values "Statistical Baseline Forecast")).getD 0 ∧
    (pyGet values "Statistical Baseline Forecast" = PyVal.none →
      (calculate_final_demand_forecast values).baseline_forecast = 0) ∧
    (calculate_final_demand_forecast values).final_demand_forecast =
      pyRound 2 ((calculate_final_demand_forecast values).baseline_forecast *
        (1 + (calculate_final_demand_boost values).total_boost_percent)) := by
  refine ⟨rfl, ?_, rfl⟩
  intro h
  show (safe_float (pyGet values "Statistical Baseline Forecast")).getD 0 = 0
  rw [h]
  rfl

/-- C6 (witness): with no signals at all, the baseline defaults to
zero. -/
theorem C6_witness : (calculate_final_demand_forecast []).baseline_forecast = 0 :=
  (C6_theorem []).2.1 rfl

namespace Store

theorem lookup_setField (r : Row) (f g : String) (v : StoreVal) :
    (setField r f v).lookup g = if g = f then some v else r.lookup g := by
  induction r with
  | nil =>
    by_cases hg : g = f
    · have hb : (g == f) = true := by simp [hg]
      simp [setField, List.lookup, hb, hg]
    · have hb : (g == f) = false := by simp [hg]
      simp [setField, List.lookup, hb, hg]
  | cons p rest ih =>
    obtain ⟨k, w⟩ := p
    by_cases hk : k = f
    · subst hk
      by_cases hg : g = k
      · have hb : (g == k) = true := by simp [hg]
        simp [setField, List.lookup, hb, hg]
      · have hb : (g == k) = false := by simp [hg]
        simp [setField, List.lookup, hb, hg]
    · by_cases hg : g = k
      · subst hg
        have hb : (g == g) = true := by simp
        simp [setField, hk, List.lookup, hb]
      · have hb : (g == k) = false := by simp [hg]
        simp [setField, hk, List.lookup, hb, hg, ih]

theorem rowGetD_setField_ne (r : Row) (f g : String) (v dflt : StoreVal) (h : g ≠ f) :
    rowGetD (setField r f v) g dflt = rowGetD r g dflt := by
  unfold rowGetD
  rw [lookup_setField, if_neg h]

theorem rowKey_setField (r : Row) (f : String) (v : StoreVal)
    (h1 : f ≠ "sku_id") (h2 : f ≠ "customer_id") (h3 : f ≠ "location_id")
    (h4 : f ≠ "as_of_date") :
    rowKey (setField r f v) = rowKey r := by
  unfold rowKey
  rw [rowGetD_setField_ne _ _ _ _ _ (Ne.symm h1), rowGetD_setField_ne _ _ _ _ _ (Ne.symm h2),
    rowGetD_setField_ne _ _ _ _ _ (Ne.symm h3), rowGetD_setField_ne _ _ _ _ _ (Ne.symm h4)]

theorem rowKey_prepRow (record : Row) (now : String) :
    rowKey (prepRow record now) = rowKey record := by
  unfold prepRow
  rw [rowKey_setField _ _ _ (by decide) (by decide) (by decide) (by decide)]
  split_ifs with h
  · rw [rowKey_setField _ _ _ (by decide) (by decide) (by decide) (by decide)]
  · rfl

theorem lookup_prepRow_ne (record : Row) (now : String) (f : String)
    (h1 : f ≠ "created_at") (h2 : f ≠ "updated_at") :
    (prepRow record now).lookup f = record.lookup f := by
  unfold prepRow
  rw [lookup_setField, if_neg h2]
  split_ifs with h
  · rw [lookup_setField, if_neg h1]
  · rfl

theorem lookup_prepRow_updated (record : Row) (now : String) :
    (prepRow record now).lookup "updated_at" = some (.str now) := by
  unfold prepRow
  rw [lookup_setField, if_pos rfl]

theorem lookup_eq_none_keys {l : List ((String × String × String × String) × Row)}
    {k : String × String × String × String} (h : l.lookup k = Option.none) :
    ∀ p ∈ l, p.1 ≠ k := by
  induction l with
  | nil => intro p hp; cases hp
  | cons p rest ih =>
    intro q hq
    by_cases hkp : k = p.1
    · simp [List.lookup, hkp] at h
    · simp only [List.lookup] at h
      rw [show (k == p.1) = false by simp [hkp]] at h
      simp only [cond_false] at h
      rcases List.mem_cons.mp hq with rfl | hq'
      · exact Ne.symm hkp
      · exact ih h q hq'

theorem dictStore_mem {l : List ((String × String × String × String) × Row)}
    {k : String × String × String × String} {row : Row} :
    ∀ q ∈ dictStore l k row, q = (k, row) ∨ q ∈ l := by
  induction l with
  | nil =>
    intro q hq
    simp [dictStore] at hq
    exact Or.inl hq
  | cons p rest ih =>
    intro q hq
    by_cases hp : p.1 = k
    · obtain ⟨k', r'⟩ := p
      simp only at hp
      simp [dictStore, hp] at hq
      rcases hq with rfl | hq'
      · exact Or.inl rfl
      · exact Or.inr (List.mem_cons_of_mem _ hq')
    · obtain ⟨k', r'⟩ := p
      simp only at hp
      simp only [dictStore, if_neg hp] at hq
      rcases List.mem_cons.mp hq with rfl | hq'
      · exact Or.inr (List.mem_cons_self _ _)
      · rcases ih q hq' with h | h
        · exact Or.inl h
        · exact Or.inr (List.mem_cons_of_mem _ h)

theorem dictStore_preserves {l : List ((String × String × String × String) × Row)}
    {k : String × String × String × String} {row : Row}
    (hd : DistinctKeys l) (hc : Consistent l) (hk : rowKey row = k) :
    DistinctKeys (dictStore l k row) ∧
      Consistent (dictStore l k row) := by
  induction l with
  | nil =>
    constructor
    · simp [dictStore, DistinctKeys]
    · intro p hp
      simp [dictStore] at hp
      rw [hp]
      exact hk
  | cons p rest ih =>
    obtain ⟨k', r'⟩ := p
    rw [DistinctKeys, List.pairwise_cons] at hd
    obtain ⟨hne, hd'⟩ := hd
    have hc' : Consistent rest := fun q hq => hc q (List.mem_cons_of_mem _ hq)
    by_cases hp : k' = k
    · have heq : dictStore ((k', r') :: rest) k row = (k, row) :: rest := by
        simp [dictStore, hp]
      rw [heq]
      constructor
      · rw [DistinctKeys, List.pairwise_cons]
        refine ⟨?_, hd'⟩
        intro q hq
        rw [← hp]
        exact hne q hq
      · intro q hq
        rcases List.mem_cons.mp hq with rfl | hq'
        · exact hk
        · exact hc' q hq'
    · have heq : dictStore ((k', r') :: rest) k row =
          (k', r') :: dictStore rest k row := by
        simp [dictStore, hp]
      rw [heq]
      obtain ⟨ihd, ihc⟩ := ih hd' hc'
      constructor
      · rw [DistinctKeys, List.pairwise_cons]
        refine ⟨?_, ihd⟩
        intro q hq
        rcases dictStore_mem q hq with rfl | hq'
        · exact hp
        · exact hne q hq'
      · intro q hq
        rcases List.mem_cons.mp hq with rfl | hq'
        · exact hc _ (List.mem_cons_self _ _)
        · exact ihc q hq'

theorem dedupeStep_preserves (latest : List ((String × String × String × String) × Row))
    (row : Row) (hd : DistinctKeys latest) (hc : Consistent latest) :
    DistinctKeys (dedupeStep latest row) ∧ Consistent (dedupeStep latest row) := by
  cases hfind : latest.lookup (rowKey row) with
  | none =>
    have heq : dedupeStep latest row = latest ++ [(rowKey row, row)] := by
      simp only [dedupeStep]
      rw [hfind]
    rw [heq]
    constructor
    · rw [DistinctKeys, List.pairwise_append]
      refine ⟨hd, by simp [DistinctKeys], ?_⟩
      intro a ha b hb
      simp at hb
      rw [hb]
      exact lookup_eq_none_keys hfind a ha
    · intro p hp
      rcases List.mem_append.mp hp with h | h
      · exact hc p h
      · simp at h
        rw [h]
  | some existing =>
    have heq : dedupeStep latest row =
        if updatedAt existing ≤ updatedAt row then
          dictStore latest (rowKey row) row
        else latest := by
      simp only [dedupeStep]
      rw [hfind]
    rw [heq]
    split_ifs with hts
    · exact dictStore_preserves hd hc rfl
    · exact ⟨hd, hc⟩

theorem foldl_dedupe_preserves (rows : List Row) :
    ∀ latest, DistinctKeys latest → Consistent latest →
      DistinctKeys (rows.foldl dedupeStep latest) ∧
        Consistent (rows.foldl dedupeStep latest) := by
  induction rows with
  | nil => intro latest hd hc; exact ⟨hd, hc⟩
  | cons row rest ih =>
    intro latest hd hc
    have hstep := dedupeStep_preserves latest row hd hc
    exact ih _ hstep.1 hstep.2

theorem filter_key_nil {l : List Row} {k : String × String × String × String}
    (h : ∀ r ∈ l, rowKey r ≠ k) :
    l.filter (fun r => decide (rowKey r = k)) = [] :=
  List.filter_eq_nil_iff.mpr (by simpa using h)

theorem distinct_filter_le_one (l : List ((String × String × String × String) × Row))
    (hd : DistinctKeys l) (hc : Consistent l) (k : String × String × String × String) :
    ((l.map Prod.snd).filter (fun r => decide (rowKey r = k))).length ≤ 1 := by
  induction l with
  | nil => simp
  | cons p rest ih =>
    obtain ⟨k', r'⟩ := p
    rw [DistinctKeys, List.pairwise_cons] at hd
    obtain ⟨hne, hd'⟩ := hd
    have hc' : Consistent rest := fun q hq => hc q (List.mem_cons_of_mem _ hq)
    have hkey : rowKey r' = k' := hc _ (List.mem_cons_self _ _)
    by_cases hk : rowKey r' = k
    · have hrest : (rest.map Prod.snd).filter (fun r => decide (rowKey r = k)) = [] := by
        apply filter_key_nil
        intro r hr
        obtain ⟨q, hq, rfl⟩ := List.mem_map.mp hr
        rw [hc' q hq, ← hk, hkey]
        exact fun hcontra => hne q hq hcontra.symm
      simp [hk, hrest]
    · simpa [hk] using ih hd' hc'

theorem load_filter_le_one (stored : List Row) (k : String × String × String × String) :
    ((load_consensus_demands stored).filter (fun r => decide (rowKey r = k))).length ≤ 1 := by
  unfold load_consensus_demands
  obtain ⟨hd, hc⟩ := foldl_dedupe_preserves (stored.map normalizeRow) []
    (by simp [DistinctKeys]) (by intro p hp; cases hp)
  have hperm := (List.mergeSort_perm
    (((stored.map normalizeRow).foldl dedupeStep []).map Prod.snd) sortKeyLe).filter
    (fun r => decide (rowKey r = k))
  rw [hperm.length_eq]
  exact distinct_filter_le_one _ hd hc k

theorem replaceFirst_filter (rows : List Row) (row : Row)
    (h : (rows.filter (fun r => decide (rowKey r = rowKey row))).length ≤ 1) :
    ∃ r', rowKey r' = rowKey row ∧
      (replaceFirst rows row).filter (fun r => decide (rowKey r = rowKey row)) = [r'] ∧
      (r' = row ∨ ∃ e, r' = setField row "created_at"
        (rowGetD e "created_at" (rowGetD row "created_at" .null))) := by
  induction rows with
  | nil =>
    refine ⟨row, rfl, ?_, Or.inl rfl⟩
    simp [replaceFirst]
  | cons e rest ih =>
    by_cases he : rowKey e = rowKey row
    · have hrest : rest.filter (fun r => decide (rowKey r = rowKey row)) = [] := by
        rw [List.filter_cons_of_pos (by simp [he])] at h
        simp only [List.length_cons] at h
        exact List.length_eq_zero.mp (Nat.le_zero.mp (Nat.le_of_succ_le_succ h))
      have hkey : rowKey (setField row "created_at"
          (rowGetD e "created_at" (rowGetD row "created_at" .null))) = rowKey row :=
        rowKey_setField _ _ _ (by decide) (by decide) (by decide) (by decide)
      refine ⟨setField row "created_at" (rowGetD e "created_at" (rowGetD row "created_at" .null)),
        hkey, ?_, Or.inr ⟨e, rfl⟩⟩
      rw [replaceFirst, if_pos he, List.filter_cons_of_pos (by simp [hkey]), hrest]
    · have hskip : (e :: rest).filter (fun r => decide (rowKey r = rowKey row)) =
          rest.filter (fun r => decide (rowKey r = rowKey row)) :=
        List.filter_cons_of_neg (by simp [he])
      rw [hskip] at h
      obtain ⟨r', h1, h2, h3⟩ := ih h
      refine ⟨r', h1, ?_, h3⟩
      rw [replaceFirst, if_neg he, List.filter_cons_of_neg (by simp [he]), h2]

/-- C9: the planned-record upsert is idempotent under repeated
identical input: for every prior store contents, after two
consecutive upserts of the same record (at timestamps `t1`, `t2`) the
store holds exactly one row keyed by the record's context key, and
that row carries the record's payload — every field other than the
maintained `created_at` / `updated_at` timestamps reads back exactly
as in the record, and `updated_at` is the second timestamp. -/
theorem C9_theorem (stored : List Row) (record : Row) (t1 t2 : String) :
    ((upsert_consensus_demand (upsert_consensus_demand stored record t1) record t2).filter
      (fun r => decide (rowKey r = rowKey record))).length = 1 ∧
    (∀ r ∈ upsert_consensus_demand (upsert_consensus_demand stored record t1) record t2,
      rowKey r = rowKey record →
        (∀ f, f ≠ "created_at" → f ≠ "updated_at" → r.lookup f = record.lookup f) ∧
        r.lookup "updated_at" = some (.str t2)) := by
  have hkey2 : rowKey (prepRow record t2) = rowKey record := rowKey_prepRow record t2
  have h2le : ((load_consensus_demands (upsert_consensus_demand stored record t1)).filter
      (fun r => decide (rowKey r = rowKey (prepRow record t2)))).length ≤ 1 := by
    rw [hkey2]
    exact load_filter_le_one _ _
  obtain ⟨r', hk', hf', hshape⟩ := replaceFirst_filter _ (prepRow record t2) h2le
  rw [hkey2] at hk' hf'
  have hs2 : upsert_consensus_demand (upsert_consensus_demand stored record t1) record t2 =
      replaceFirst (load_consensus_demands (upsert_consensus_demand stored record t1))
        (prepRow record t2) := rfl
  constructor
  · rw [hs2, hf']
    rfl
  · intro r hr hkr
    have hrmem : r ∈ (replaceFirst
        (load_consensus_demands (upsert_consensus_demand stored record t1))
        (prepRow record t2)).filter (fun x => decide (rowKey x = rowKey record)) := by
      rw [← hs2]
      exact List.mem_filter.mpr ⟨hr, by simp [hkr]⟩
    rw [hf'] at hrmem
    have hreq : r = r' := by simpa using hrmem
    subst hreq
    rcases hshape with rfl | ⟨e, rfl⟩
    · constructor
      · intro f hf1 hf2
        exact lookup_prepRow_ne record t2 f hf1 hf2
      · exact lookup_prepRow_updated record t2
    · constructor
      · intro f hf1 hf2
        rw [lookup_setField, if_neg hf1]
        exact lookup_prepRow_ne record t2 f hf1 hf2
      · rw [lookup_setField, if_neg (by decide)]
        exact lookup_prepRow_updated record t2

/-- C9 (witness): upserting the sample record twice into an empty
store leaves exactly one row under its key, whose payload field
`"qty"` reads back as in the record and whose `updated_at` is the
second timestamp. -/
theorem C9_witness :
    ((upsert_consensus_demand (upsert_consensus_demand [] sampleRecord "T1")
        sampleRecord "T2").filter
      (fun r => decide (rowKey r = rowKey sampleRecord))).length = 1 ∧
    sampleFinalRow.lookup "qty" = sampleRecord.lookup "qty" ∧
    sampleFinalRow.lookup "updated_at" = some (.str "T2") := by
  have hrow1 : prepRow sampleRecord "T1" =
      [("sku_id", .str "S"), ("qty", .num 5),
       ("created_at", .str "T1"), ("updated_at", .str "T1")] := rfl
  have hload1 : load_consensus_demands [] = [] := by
    unfold load_consensus_demands
    simp
  have hs1 : upsert_consensus_demand [] sampleRecord "T1" =
      [[("sku_id", .str "S"), ("qty", .num 5),
        ("created_at", .str "T1"), ("updated_at", .str "T1")]] := by
    unfold upsert_consensus_demand
    rw [hload1, hrow1]
    rfl
  have hload2 : load_consensus_demands
      [[("sku_id", .str "S"), ("qty", .num 5),
        ("created_at", .str "T1"), ("updated_at", .str "T1")]] =
      [[("sku_id", .str "S"), ("qty", .num 5),
        ("created_at", .str "T1"), ("updated_at", .str "T1")]] := by
    have hpre : List.map Prod.snd (List.foldl dedupeStep []
        (List.map normalizeRow
          [[(("sku_id" : String), StoreVal.str "S"), ("qty", .num 5),
            ("created_at", .str "T1"), ("updated_at", .str "T1")]])) =
        [[("sku_id", .str "S"), ("qty", .num 5),
          ("created_at", .str "T1"), ("updated_at", .str "T1")]] := rfl
    simp only [load_consensus_demands]
    rw [hpre]
    exact List.mergeSort_singleton _
  have hs2 : upsert_consensus_demand (upsert_consensus_demand [] sampleRecord "T1")
      sampleRecord "T2" = [sampleFinalRow] := by
    rw [hs1]
    unfold upsert_consensus_demand
    rw [hload2]
    rfl
  have hmem : sampleFinalRow ∈ upsert_consensus_demand
      (upsert_consensus_demand [] sampleRecord "T1") sampleRecord "T2" := by
    rw [hs2]
    exact List.mem_singleton.mpr rfl
  have hkey : rowKey sampleFinalRow = rowKey sampleRecord := rfl
  have hmain := C9_theorem [] sampleRecord "T1" "T2"
  have hpayload := hmain.2 sampleFinalRow hmem hkey
  exact ⟨hmain.1, hpayload.1 "qty" (by decide) (by decide), hpayload.2⟩

end Store

end DemandEngine
